import Mathlib

/-!
Verification of the granary bidirectional social-data mapping engine
against its specification.  The Mastodon adapter is embedded from
src/granary/mastodon.py.  Components whose implementation files are not
under src (the microformats2 mapper, the Facebook target-resolver and
the shared source helpers) are modelled from the specification text,
anchored to the expected inputs and outputs of the repository test
suites, which are the only repository code that pins their behavior.

All definitions are structurally recursive so that concrete witnesses
evaluate by kernel reduction; the handful of core String functions that
do not reduce (splitOn, trim, startsWith) are re-implemented over the
underlying character lists.
-/

namespace Granary

/-! ## Character-list string utilities -/

/-- Whether the first list is a prefix of the second. -/
def isPrefixL : List Char → List Char → Bool
  | [], _ => true
  | _ :: _, [] => false
  | p :: ps, c :: cs => p == c && isPrefixL ps cs

/-- Characters before the first occurrence of a single-character
separator (the whole list when absent). -/
def takeUntilChar (sep : Char) : List Char → List Char
  | [] => []
  | c :: rest => if c = sep then [] else c :: takeUntilChar sep rest

/-- Split on a single-character separator (never returns an empty list). -/
def splitChar (sep : Char) : List Char → List (List Char)
  | [] => [[]]
  | c :: rest =>
    if c = sep then [] :: splitChar sep rest
    else
      match splitChar sep rest with
      | [] => [[c]]
      | g :: gs => (c :: g) :: gs

/-- Rejoin groups with a single-character separator. -/
def joinSepChars (sep : Char) : List (List Char) → List Char
  | [] => []
  | [g] => g
  | g :: gs => g ++ sep :: joinSepChars sep gs

/-- Everything after the first occurrence of a pattern, none when the
pattern does not occur. -/
def dropAfterFirst (pat : List Char) : List Char → Option (List Char)
  | [] => none
  | c :: rest =>
    if isPrefixL pat (c :: rest) then some (List.drop pat.length (c :: rest))
    else dropAfterFirst pat rest

/-- Everything before the first occurrence of a pattern (the whole list
when absent). -/
def takeUntilL (pat : List Char) : List Char → List Char
  | [] => []
  | c :: rest =>
    if isPrefixL pat (c :: rest) then []
    else c :: takeUntilL pat rest

/-- Number of (possibly overlapping) occurrences of a pattern. -/
def countOcc (pat : List Char) : List Char → Nat
  | [] => 0
  | c :: rest => (if isPrefixL pat (c :: rest) then 1 else 0) + countOcc pat rest

/-- Number of occurrences of a pattern in a string. -/
def countSub (s pat : String) : Nat := countOcc pat.data s.data

/-- Whether a string starts with a prefix. -/
def strStartsWith (s pre : String) : Bool := isPrefixL pre.data s.data

/-- Python-style whitespace test for str.strip. -/
def isWsp (c : Char) : Bool := c == ' ' || c == '\t' || c == '\n' || c == '\r'

/-- Strip leading and trailing whitespace. -/
def strTrim (s : String) : String :=
  String.mk (((s.data.dropWhile isWsp).reverse.dropWhile isWsp).reverse)

/-- Concatenate a list of strings. -/
def concatAll : List String → String
  | [] => ""
  | x :: xs => x ++ concatAll xs

/-- Join strings with a separator. -/
def joinSep (sep : String) : List String → String
  | [] => ""
  | [x] => x
  | x :: xs => x ++ sep ++ joinSep sep xs

/-- Lexicographic comparison of character lists by code point. -/
def charListLe : List Char → List Char → Bool
  | [], _ => true
  | _ :: _, [] => false
  | a :: as, b :: bs =>
    if a.toNat < b.toNat then true
    else if b.toNat < a.toNat then false
    else charListLe as bs

/-- Membership test by the BEq relation. -/
def listHas [BEq α] (x : α) : List α → Bool
  | [] => false
  | y :: ys => x == y || listHas x ys

/-- Keep the first occurrence of each element, dropping later duplicates
(exact equality only); seen accumulates elements already emitted. -/
def dedupSeen [BEq α] (seen : List α) : List α → List α
  | [] => []
  | x :: xs =>
    if listHas x seen then dedupSeen seen xs
    else x :: dedupSeen (x :: seen) xs

/-- First-occurrence de-duplication. -/
def dedupFirst [BEq α] (l : List α) : List α := dedupSeen [] l

/-- Insert into a sorted list, before the first element not strictly
smaller, so that the overall sort is stable. -/
def insertLe (le : α → α → Bool) (x : α) : List α → List α
  | [] => [x]
  | y :: ys => if le x y then x :: y :: ys else y :: insertLe le x ys

/-- Stable insertion sort. -/
def sortLe (le : α → α → Bool) : List α → List α
  | [] => []
  | x :: xs => insertLe le x (sortLe le xs)

/-! ## HTML escaping and the span splicer

Modelled from the spec: the Span-Splicer of section 4.1.  The repository
file implementing it (microformats2.py, function render_content) is not
under src; only its tests are.  Offsets count Unicode code points, so
content is processed as a list of characters (a Lean Char is a Unicode
scalar value). -/

/-- Escape one character for a plain-text HTML run (spec 4.1: the
metacharacters ampersand, angle brackets and double quote). -/
def escapeChar (c : Char) : String :=
  if c = '&' then "&amp;"
  else if c = '<' then "&lt;"
  else if c = '>' then "&gt;"
  else if c = '"' then "&quot;"
  else String.mk [c]

/-- Escape a run of plain text, character by character. -/
def escapeRun : List Char → String
  | [] => ""
  | c :: cs => escapeChar c ++ escapeRun cs

/-- An inline tag: an anchor url plus a code-point span over the content. -/
structure InlineTag where
  url : String
  startIndex : Nat
  spanLen : Nat
deriving DecidableEq

/-- Clamped span start (spec 4.1: offsets beyond the content length are
clamped, never an error). -/
def effStart (n : Nat) (t : InlineTag) : Nat := min t.startIndex n

/-- Clamped span end. -/
def effEnd (n : Nat) (t : InlineTag) : Nat := min (t.startIndex + t.spanLen) n

/-- Opening anchor markup for an inline tag. -/
def anchorOpen (t : InlineTag) : String :=
  "<a href=\"" ++ t.url ++ "\">"

/-- Closing markers contributed at boundary p: one per tag whose clamped
span ends at p and started strictly earlier. -/
def closeMarkers : List InlineTag → Nat → Nat → String
  | [], _, _ => ""
  | t :: ts, n, p =>
    (if effEnd n t = p ∧ effStart n t ≠ p then "</a>" else "") ++ closeMarkers ts n p

/-- Opening markers contributed at boundary p, one per tag whose clamped
span starts at p; a zero-width span opens and closes immediately (spec
4.1: zero-length tags are valid no-op position markers). -/
def openMarkers : List InlineTag → Nat → Nat → String
  | [], _, _ => ""
  | t :: ts, n, p =>
    (if effStart n t = p then
      anchorOpen t ++ (if effEnd n t = p then "</a>" else "")
    else "") ++ openMarkers ts n p

/-- Markers inserted at one code-point boundary.  Each tag contributes its
open and close markers independently (spec 4.1: overlapping spans are not
rejected, they simply nest), closers first, in reverse order of opening. -/
def boundaryMarkers (tags : List InlineTag) (n p : Nat) : String :=
  closeMarkers tags.reverse n p ++ openMarkers tags n p

/-- Walk the content; at each boundary emit markers, then the escaped
character. -/
def spliceWalk (tags : List InlineTag) (n : Nat) : Nat → List Char → String
  | p, [] => boundaryMarkers tags n p
  | p, c :: rest => boundaryMarkers tags n p ++ escapeChar c ++ spliceWalk tags n (p + 1) rest

/-- The span splicer: overlay inline tags on plain-text content.  Tags are
processed in ascending startIndex order, ties broken by input order
(spec 4.1). -/
def spliceTags (content : List Char) (tags : List InlineTag) : String :=
  spliceWalk (sortLe (fun a b => Nat.ble a.startIndex b.startIndex) tags)
    content.length 0 content

/-! ## Out-of-line tag rendering and render_content

Modelled from the spec: section 4.1 appends tags lacking offsets after
the text.  The concrete per-tag markup is pinned by the repository tests
test_render_content_omits_tags_without_urls and test_mention_and_hashtag:
a tag with a url and a display name renders visibly, a tag with a url and
no name (and every mention) renders as an aria-hidden empty anchor, and a
tag with no url is dropped. -/

/-- A canonical tag as render_content receives it. -/
structure CTag where
  objectType : Option String
  url : Option String
  displayName : Option String
  startIndex : Option Nat
  spanLen : Option Nat
deriving DecidableEq

/-- A tag is spliced inline when it carries a url and both offsets. -/
def CTag.isInline (t : CTag) : Bool :=
  t.url.isSome && t.startIndex.isSome && t.spanLen.isSome

/-- View of an inline-eligible tag as an InlineTag. -/
def CTag.toInline (t : CTag) : InlineTag :=
  { url := t.url.getD "", startIndex := t.startIndex.getD 0, spanLen := t.spanLen.getD 0 }

/-- One out-of-line anchor, on its own line. -/
def outlineAnchor (cls : String) (visible : Bool) (url name : String) : String :=
  if visible && !(name == "") then
    "\n<a class=\"" ++ cls ++ "\" href=\"" ++ url ++ "\">" ++ name ++ "</a>"
  else
    "\n<a class=\"" ++ cls ++ "\" aria-hidden=\"true\" href=\"" ++ url ++ "\"></a>"

/-- Ordering on (url, name) pairs used for out-of-line anchors (the set
of pairs is emitted in sorted order, as the tests pin). -/
def pairLe (a b : String × String) : Bool :=
  if a.1 == b.1 then charListLe a.2.data b.2.data else charListLe a.1.data b.1.data

/-- Render one group of out-of-line tags with a common class: collect the
(url, name) pairs of tags that have a url (tags without a url contribute
nothing), de-duplicate, sort, and emit one anchor each. -/
def outlineGroup (cls : String) (visible : Bool) (tags : List CTag) : String :=
  concatAll ((sortLe pairLe (dedupFirst (tags.filterMap
      (fun t => t.url.map (fun u => (u, t.displayName.getD "")))))).map
    (fun p => outlineAnchor cls visible p.1 p.2))

/-- Render content with tags: splice the inline tags over the text, then
append hashtags, mentions and the remaining tags out of line. -/
def render_content (content : Option String) (tags : List CTag) : String :=
  let inline := (tags.filter CTag.isInline).map CTag.toInline
  let outline := tags.filter (fun t => !(CTag.isInline t))
  spliceTags (content.getD "").data inline
    ++ outlineGroup "p-category" true
        (outline.filter (fun t => t.objectType == some "hashtag"))
    ++ outlineGroup "u-mention" false
        (outline.filter (fun t => t.objectType == some "mention"))
    ++ outlineGroup "tag" true
        (outline.filter (fun t =>
          !(t.objectType == some "hashtag") && !(t.objectType == some "mention")))

/-! ## Micro-format tree to canonical conversion

Modelled from the spec: section 4.2 of the spec (microformats2.py,
function json_to_object, is not under src).  objectType and verb are
derived from relation properties; a tree carrying both a tag-of and an
in-reply-to relation is contradictory and fails rather than silently
picking one (the repository test test_combined_reply_and_tag_of_error
pins that this combination raises). -/

/-- A micro-format property value: a plain string or a value/html dual
representation. -/
inductive MF2Val where
  | s (v : String)
  | dual (value : Option String) (html : Option String)
deriving DecidableEq

/-- A micro-format property tree: a type list plus named properties. -/
structure MF2 where
  type : List String
  props : List (String × List MF2Val)
deriving DecidableEq

/-- Whether a property is present. -/
def MF2.hasProp (t : MF2) (name : String) : Bool :=
  t.props.any (fun p => p.1 == name)

/-- First value of a property. -/
def MF2.firstVal (t : MF2) (name : String) : Option MF2Val :=
  (t.props.find? (fun p => p.1 == name)).bind (fun p => p.2.head?)

/-- Content of a property value: the html member when given, else the
value member, else the plain string itself (test
test_html_content_and_summary pins this priority). -/
def contentOf : Option MF2Val → Option String
  | none => none
  | some (.s v) => some v
  | some (.dual value html) =>
    match html with
    | some h => some h
    | none => value

/-- Conversion errors of the micro-format mapper (spec section 7:
AmbiguousRelationError is fatal to the conversion call). -/
inductive MF2Error where
  | ambiguousRelation
deriving DecidableEq

/-- The canonical object fields derived by json_to_object that this
development tracks. -/
structure MF2Obj where
  objectType : String
  verb : Option String
  content : Option String
deriving DecidableEq

/-- Tree-to-canonical conversion: derive objectType and verb from the
relation properties, fail on the contradictory tag-of plus in-reply-to
combination. -/
def json_to_object (t : MF2) : Except MF2Error MF2Obj :=
  if t.hasProp "tag-of" && t.hasProp "in-reply-to" then
    .error .ambiguousRelation
  else
    let verb : Option String :=
      if t.hasProp "like-of" then some "like"
      else if t.hasProp "repost-of" then some "share"
      else none
    .ok { objectType := if verb.isSome then "activity" else "note"
          verb := verb
          content := contentOf (t.firstVal "content") }

/-! ## Canonical-to-tree url merging

Modelled from the spec: section 4.2 of the spec (microformats2.py,
function object_urls, is not under src; the repository test
test_object_urls pins the order).  The singular url comes first, then the
urls list in input order, de-duplicated by exact string equality keeping
first occurrences. -/

/-- Merge the singular url and the urls list of an actor into one ordered,
de-duplicated url list. -/
def object_urls (url : Option String) (urls : List String) : List String :=
  dedupFirst (url.toList ++ urls)

/-! ## Facebook target-resolver fallback chain

Modelled from the spec: section 4.4 and the concrete scenario of section
8 of the spec (facebook.py is not under src).  The repository tests
test_get_activities_activity_id_strips_user_id_prefix and
test_get_activities_activity_id_fallback_to_user_id_param pin the
attempt order for a composite id: first the suffix after the first
separator, then the id verbatim, then the suffix prefixed by the
alternate owner hint.  Each attempt runs only after the previous one
failed, and a successful attempt ends the chain. -/

/-- Split a string at the first occurrence of a separator character. -/
def splitFirstSep (sep : Char) (s : String) : Option (String × String) :=
  match splitChar sep s.data with
  | [] => none
  | [_] => none
  | pre :: rest => some (String.mk pre, String.mk (joinSepChars sep rest))

/-- Candidate ids for an activity-id lookup, in attempt order. -/
def fb_candidate_ids (activity_id : String) (user_id : Option String) : List String :=
  match splitFirstSep '_' activity_id with
  | none => [activity_id]
  | some (_, suf) =>
    [suf, activity_id] ++
      (match user_id with
       | some u => [u ++ "_" ++ suf]
       | none => [])

/-- Whether an HTTP status code is a success. -/
def is2xx (status : Nat) : Bool := Nat.ble 200 status && Nat.blt status 300

/-- Try candidates in order against the response oracle; returns the list
of ids actually attempted, in order, and the id of the successful attempt
(none when the chain is exhausted, spec 4.4 step 5: TargetNotFoundError). -/
def fb_attempt (resp : String → Nat) : List String → List String × Option String
  | [] => ([], none)
  | c :: rest =>
    if is2xx (resp c) then ([c], some c)
    else
      let r := fb_attempt resp rest
      (c :: r.1, r.2)

/-- The fallback-chain resolver for an activity id, with an optional
alternate owner hint. -/
def fb_resolve (activity_id : String) (user_id : Option String)
    (resp : String → Nat) : List String × Option String :=
  fb_attempt resp (fb_candidate_ids activity_id user_id)

/-! ## Python value helpers for the Mastodon embedding -/

/-- Python exception kinds surfaced by the embedded code. -/
inductive PyErr where
  | attributeError
  | typeError
  | keyError
deriving DecidableEq

/-- Python string interpolation of a possibly-missing value (None prints
as the string None). -/
def pyStr : Option String → String
  | none => "None"
  | some s => s

/-- Python falsiness of an optional string (absent or empty). -/
def pyFalsy (o : Option String) : Bool := o.getD "" == ""

/-- Drop an empty optional string, as util.trim_nulls does. -/
def trimStr : Option String → Option String
  | none => none
  | some s => if s = "" then none else some s

/-- Monadic map over a list in the Except monad, defined structurally. -/
def mapMexcept (g : α → Except PyErr β) : List α → Except PyErr (List β)
  | [] => .ok []
  | x :: xs => do
    let y ← g x
    let ys ← mapMexcept g xs
    pure (y :: ys)

/-- Href of the first anchor in an HTML fragment.  Models the chain
util.parse_html(value).find(anchor)[href] used by mastodon.py line 280:
a missing value, a fragment without an anchor tag or an anchor without an
href all raise in Python and so yield an error here. -/
def firstAnchorHref : Option String → Except PyErr String
  | none => .error .typeError
  | some s =>
    match dropAfterFirst "<a ".data s.data with
    | none => .error .typeError
    | some afterA =>
      match dropAfterFirst "href=\"".data (takeUntilChar '>' afterA) with
      | none => .error .keyError
      | some afterHref => .ok (String.mk (takeUntilChar '"' afterHref))

/-- Stable tag URI for an entity (util.tag_uri). -/
def tag_uri (domain name : String) : String := "tag:" ++ domain ++ ":" ++ name

/-- Join an absolute path onto an instance base url (urllib.parse.urljoin
restricted to the absolute-path case, the only one the source uses). -/
def urljoin (base path : String) : String :=
  (if base.data.getLast? = some '/' then String.mk base.data.dropLast else base) ++ path

/-! ## Mastodon wire schema (inputs of the adapter, src/granary/mastodon.py) -/

/-- A profile metadata field of a Mastodon account. -/
structure MField where
  name : Option String
  value : Option String
deriving DecidableEq

/-- A Mastodon account, all fields optional. -/
structure MAccount where
  id : Option String
  username : Option String
  url : Option String
  display_name : Option String
  avatar : Option String
  created_at : Option String
  note : Option String
  fields : List MField
deriving DecidableEq

/-- A Mastodon media attachment (the key named type in the wire format). -/
structure MMedia where
  id : Option String
  type : Option String
  url : Option String
  preview_url : Option String
  description : Option String
deriving DecidableEq

/-- A Mastodon mention entry. -/
structure MMention where
  id : Option String
  url : Option String
  username : Option String
deriving DecidableEq

/-- A Mastodon hashtag entry. -/
structure MHashtag where
  url : Option String
  name : Option String
deriving DecidableEq

/-- A Mastodon application entry. -/
structure MApp where
  name : Option String
  url : Option String
deriving DecidableEq

/-- A Mastodon status; reblog nests another status, hence an inductive
type.  Constructor argument order: id, url, created_at, content,
in_reply_to_id, visibility, account, reblog, media_attachments, mentions,
tags, application.  Statuses never carry a retweets key, so the dead
retweets branch of status_to_object line 242 is not modelled. -/
inductive MStatus where
  | mk (id url created_at content in_reply_to_id visibility : Option String)
       (account : Option MAccount)
       (reblog : Option MStatus)
       (media_attachments : List MMedia)
       (mentions : List MMention)
       (tags : List MHashtag)
       (application : Option MApp)

def MStatus.id : MStatus → Option String
  | .mk i _ _ _ _ _ _ _ _ _ _ _ => i

def MStatus.url : MStatus → Option String
  | .mk _ u _ _ _ _ _ _ _ _ _ _ => u

def MStatus.created_at : MStatus → Option String
  | .mk _ _ c _ _ _ _ _ _ _ _ _ => c

def MStatus.content : MStatus → Option String
  | .mk _ _ _ c _ _ _ _ _ _ _ _ => c

def MStatus.in_reply_to_id : MStatus → Option String
  | .mk _ _ _ _ r _ _ _ _ _ _ _ => r

def MStatus.visibility : MStatus → Option String
  | .mk _ _ _ _ _ v _ _ _ _ _ _ => v

def MStatus.account : MStatus → Option MAccount
  | .mk _ _ _ _ _ _ a _ _ _ _ _ => a

def MStatus.reblog : MStatus → Option MStatus
  | .mk _ _ _ _ _ _ _ r _ _ _ _ => r

def MStatus.media_attachments : MStatus → List MMedia
  | .mk _ _ _ _ _ _ _ _ m _ _ _ => m

def MStatus.mentions : MStatus → List MMention
  | .mk _ _ _ _ _ _ _ _ _ m _ _ => m

def MStatus.tags : MStatus → List MHashtag
  | .mk _ _ _ _ _ _ _ _ _ _ t _ => t

def MStatus.application : MStatus → Option MApp
  | .mk _ _ _ _ _ _ _ _ _ _ _ a => a

/-! ## Canonical ActivityStreams output shapes -/

/-- An image or stream reference. -/
structure ASImage where
  url : Option String
deriving DecidableEq

/-- A canonical actor. -/
structure ASActor where
  objectType : Option String
  id : Option String
  numeric_id : Option String
  username : Option String
  displayName : Option String
  url : Option String
  urls : List String
  image : Option String
  published : Option String
  description : Option String
deriving DecidableEq

/-- The empty actor (the empty dict). -/
def ASActor.empty : ASActor :=
  { objectType := none, id := none, numeric_id := none, username := none,
    displayName := none, url := none, urls := [], image := none,
    published := none, description := none }

/-- A canonical attachment. -/
structure ASAttachment where
  id : Option String
  objectType : Option String
  displayName : Option String
  image : Option ASImage
  stream : Option ASImage
deriving DecidableEq

/-- A canonical tag. -/
structure ASTag where
  objectType : Option String
  id : Option String
  url : Option String
  displayName : Option String
deriving DecidableEq

/-- A weak reference by id or url. -/
structure ASRef where
  id : Option String
  url : Option String
deriving DecidableEq

/-- An audience entry (the Python key is named alias, a reserved word
here). -/
structure ASAudience where
  objectType : Option String
  aliasStr : Option String
deriving DecidableEq

/-- A canonical object (the Python key to is a reserved word here, named
toAud). -/
structure ASObject where
  objectType : Option String
  id : Option String
  url : Option String
  published : Option String
  author : Option ASActor
  attachments : List ASAttachment
  content : Option String
  image : Option ASImage
  stream : Option ASImage
  tags : List ASTag
  inReplyTo : List ASRef
  toAud : List ASAudience
deriving DecidableEq

/-- The empty object (the empty dict). -/
def ASObject.empty : ASObject :=
  { objectType := none, id := none, url := none, published := none,
    author := none, attachments := [], content := none, image := none,
    stream := none, tags := [], inReplyTo := [], toAud := [] }

/-- A canonical generator entry. -/
structure ASGenerator where
  displayName : Option String
  url : Option String
deriving DecidableEq

/-- A canonical activity. -/
structure ASActivity where
  objectType : Option String
  verb : Option String
  published : Option String
  id : Option String
  url : Option String
  actor : Option ASActor
  object : Option ASObject
  contextInReplyTo : List ASRef
  generator : Option ASGenerator
deriving DecidableEq

/-! ## trim_nulls on the canonical shapes

Modelled from the spec: postprocess_object and postprocess_activity live
in source.py, which is not under src; per spec section 7 the
MalformedInputIgnored policy drops absent or empty values, which is what
util.trim_nulls does on the dicts the adapter builds. -/

/-- Drop an image dict whose url is absent or empty. -/
def trimImage : Option ASImage → Option ASImage
  | none => none
  | some i => if pyFalsy i.url then none else some i

/-- Trim one attachment. -/
def trimAttachment (a : ASAttachment) : ASAttachment :=
  { id := trimStr a.id, objectType := trimStr a.objectType,
    displayName := trimStr a.displayName,
    image := trimImage a.image, stream := trimImage a.stream }

/-- Trim one tag. -/
def trimTag (t : ASTag) : ASTag :=
  { objectType := trimStr t.objectType, id := trimStr t.id,
    url := trimStr t.url, displayName := trimStr t.displayName }

/-- Trim one reference. -/
def trimRef (r : ASRef) : ASRef :=
  { id := trimStr r.id, url := trimStr r.url }

/-- Trim a whole object. -/
def trimObject (o : ASObject) : ASObject :=
  { objectType := trimStr o.objectType
    id := trimStr o.id
    url := trimStr o.url
    published := trimStr o.published
    author := match o.author with
      | some a => if a = ASActor.empty then none else some a
      | none => none
    attachments := o.attachments.map trimAttachment
    content := trimStr o.content
    image := trimImage o.image
    stream := trimImage o.stream
    tags := o.tags.map trimTag
    inReplyTo := o.inReplyTo.map trimRef
    toAud := o.toAud }

/-- Trim a generator entry. -/
def trimGenerator : Option ASGenerator → Option ASGenerator
  | none => none
  | some g =>
    if trimStr g.displayName = none ∧ trimStr g.url = none then none
    else some { displayName := trimStr g.displayName, url := trimStr g.url }

/-- Trim a whole activity. -/
def trimActivity (a : ASActivity) : ASActivity :=
  { objectType := trimStr a.objectType
    verb := trimStr a.verb
    published := trimStr a.published
    id := trimStr a.id
    url := trimStr a.url
    actor := match a.actor with
      | some x => if x = ASActor.empty then none else some x
      | none => none
    object := match a.object with
      | some o => if o = ASObject.empty then none else some o
      | none => none
    contextInReplyTo := a.contextInReplyTo
    generator := trimGenerator a.generator }

/-! ## The Mastodon adapter conversions (embedded from
src/granary/mastodon.py) -/

/-- Map a Mastodon media type to an objectType (MEDIA_TYPES, lines
33 to 38; the dict maps unknown to None and a missing key also yields
None). -/
def mediaType : Option String → Option String
  | some "image" => some "image"
  | some "video" => some "video"
  | some "gifv" => some "video"
  | _ => none

/-- Build one attachment from a media entry (status_to_object, lines 198
to 213).  An Option none field models an absent dict key: the image key
exists only for image, video and gifv types, the stream key only for
video and gifv. -/
def media_to_attachment (domain : String) (m : MMedia) : ASAttachment :=
  { id := some (tag_uri domain (pyStr m.id))
    objectType := mediaType m.type
    displayName := m.description
    image := if m.type == some "image" then some { url := m.url }
             else if m.type == some "gifv" || m.type == some "video" then
               some { url := m.preview_url }
             else none
    stream := if m.type == some "gifv" || m.type == some "video" then
                some { url := m.url }
              else none }

/-- Convert a Mastodon account to an actor (account_to_actor, lines 266
to 295).  A missing account raises AttributeError in Python (account.get
on None); a Web site profile field whose value lacks anchor markup
raises in the href extraction. -/
def account_to_actor (domain : String) : Option MAccount → Except PyErr ASActor
  | none => .error .attributeError
  | some a => do
    let username := (a.username).getD ""
    if username = "" then
      return ASActor.empty
    let url := a.url
    let webSites ← mapMexcept (fun f => firstAnchorHref f.value)
      (a.fields.filter (fun f => f.name == some "Web site"))
    return {
      objectType := some "person"
      id := some (tag_uri domain username)
      numeric_id := trimStr a.id
      username := some username
      displayName := some (if (a.display_name).getD "" = "" then username
                           else (a.display_name).getD "")
      url := trimStr url
      urls := (url.toList ++ webSites).filter (fun u => u ≠ "")
      image := trimStr a.avatar
      published := trimStr a.created_at
      description := trimStr a.note }

/-- Convert a status to an object (status_to_object, lines 171 to 264).
The steps run in Python evaluation order, so the first failing access
determines the raised error. -/
def status_to_object (instanceUrl domain : String) (status : MStatus) :
    Except PyErr ASObject := do
  if pyFalsy status.id then
    return ASObject.empty
  let author ← account_to_actor domain status.account
  let base := (status.reblog).getD status
  let content0 := (base.content).getD ""
  let atts := status.media_attachments.map (media_to_attachment domain)
  let streamImage ←
    match atts.head? with
    | none => pure ((none : Option ASImage), (none : Option ASImage))
    | some first =>
      if first.objectType = some "video" then
        pure (first.stream, none)
      else
        match first.image with
        | some img => pure (none, some img)
        | none => .error .keyError
  let tagList :=
    (status.mentions.map (fun t =>
      ({ objectType := some "mention", id := some (tag_uri domain (pyStr t.id)),
         url := t.url, displayName := t.username } : ASTag))
    ++ status.tags.map (fun t =>
      ({ objectType := some "hashtag", id := none,
         url := t.url, displayName := t.name } : ASTag))).filter
      (fun t => t.objectType ≠ some "image")
  let content ←
    match status.reblog with
    | some r =>
      if pyFalsy r.content then pure content0
      else
        match r.account with
        | none => .error .attributeError
        | some racc =>
          pure ("Boosted <a href=\"" ++ pyStr racc.url ++ "\">@"
            ++ pyStr racc.username ++ "</a>: " ++ content0)
    | none => pure content0
  let replyTo :=
    match status.in_reply_to_id with
    | some rid =>
      if rid = "" then []
      else [({ id := some (tag_uri domain rid),
               url := some (urljoin instanceUrl ("/TODO/status/" ++ rid)) } : ASRef)]
    | none => []
  let audience :=
    match status.visibility with
    | some v =>
      if v = "" then []
      else [({ objectType := some "group", aliasStr := some ("@" ++ v) } : ASAudience)]
    | none => []
  return trimObject {
    objectType := some "note"
    id := some (tag_uri domain ((status.id).getD ""))
    url := status.url
    published := status.created_at
    author := some author
    attachments := atts
    content := some content
    image := streamImage.2
    stream := streamImage.1
    tags := tagList
    inReplyTo := replyTo
    toAud := audience }

/-- Convert a status to an activity (status_to_activity, lines 134 to
169). -/
def status_to_activity (instanceUrl domain : String) (status : MStatus) :
    Except PyErr ASActivity := do
  let obj ← status_to_object instanceUrl domain status
  let act0 : ASActivity :=
    { objectType := none
      verb := some "post"
      published := obj.published
      id := obj.id
      url := obj.url
      actor := obj.author
      object := some obj
      contextInReplyTo := obj.inReplyTo
      generator := none }
  let act1 ←
    match status.reblog with
    | some r => do
      let robj ← status_to_object instanceUrl domain r
      pure { act0 with objectType := some "activity", verb := some "share",
                       object := some robj }
    | none => pure act0
  let act2 :=
    match status.application with
    | some app =>
      { act1 with generator := some { displayName := app.name, url := app.url } }
    | none => act1
  return trimActivity act2

/-! ## Well-formedness conditions under which the conversions are total -/

/-- Conditions on an account under which account_to_actor cannot raise:
the account is present and every Web site profile field carries anchor
markup with an href. -/
def accountWF : Option MAccount → Bool
  | none => false
  | some a =>
    a.fields.all (fun f =>
      !(f.name == some "Web site") || (firstAnchorHref f.value).isOk)

/-- Condition on media attachments: the first entry, when present, has a
type the adapter recognizes (otherwise the image-key access raises). -/
def mediaWF (l : List MMedia) : Bool :=
  match l.head? with
  | none => true
  | some m => m.type == some "image" || m.type == some "video" || m.type == some "gifv"

/-- Conditions under which status_to_object cannot raise. -/
def statusWF (s : MStatus) : Bool :=
  pyFalsy s.id ||
  (accountWF s.account && mediaWF s.media_attachments &&
    (match s.reblog with
     | some r => pyFalsy r.content || (r.account).isSome
     | none => true))

/-- Conditions under which status_to_activity cannot raise (the reblogged
status is converted too, so it must be well formed itself). -/
def statusWFdeep (s : MStatus) : Bool :=
  statusWF s &&
  (match s.reblog with
   | some r => statusWF r
   | none => true)

/-! ## Publishing: base-object resolution and create

mastodon.py lines 297 to 474; the helpers base_object,
content_for_create, truncate and linkify live in source.py, which is
not under src, and are modelled from spec sections 4.3 and 4.4. -/

/-- A reference inside an object being published. -/
structure PubRef where
  id : Option String
  url : Option String
  displayName : Option String
deriving DecidableEq

/-- An object being published (the inputs create reads). -/
structure PubObject where
  objectType : Option String
  verb : Option String
  content : Option String
  displayName : Option String
  url : Option String
  inReplyTo : List PubRef
  object : List PubRef
  image : List PubRef
  stream : List PubRef
deriving DecidableEq

/-- Domain of an http or https url. -/
def domainOfLink (u : String) : Option String :=
  if strStartsWith u "https://" then
    some (String.mk (takeUntilChar '/' (u.data.drop 8)))
  else if strStartsWith u "http://" then
    some (String.mk (takeUntilChar '/' (u.data.drop 7)))
  else none

/-- Last path segment of a url, ignoring a trailing slash. -/
def lastPathSegment (u : String) : Option String :=
  let cs := if u.data.getLast? = some '/' then u.data.dropLast else u.data
  ((splitChar '/' cs).getLast?).map String.mk

/-- Modelled from the spec: base-object resolution (spec 4.4 step 1).
Scan the inReplyTo then object references; the first one whose url lies
on this instance carries the native id as its final path segment. -/
def base_object (domain : String) (obj : PubObject) : PubRef :=
  match (obj.inReplyTo ++ obj.object).find? (fun r =>
    match r.url with
    | some u => domainOfLink u == some domain
    | none => false) with
  | some r =>
    { id := r.url.bind lastPathSegment, url := r.url, displayName := none }
  | none => { id := none, url := none, displayName := none }

/-- Whether a verb marks an RSVP-style publish (mastodon.py line 358). -/
def verbIsRsvp : Option String → Bool
  | some v => strStartsWith v "rsvp-" || v == "invite"
  | none => false

/-- Modelled from the spec: content selection for publishing (spec 4.3;
source.py content_for_create).  Articles prefer the displayName, notes
and replies prefer the content; the empty result is reported as absent. -/
def content_for_create (obj : PubObject) (prefer_name : Bool) : Option String :=
  let content := strTrim ((obj.content).getD "")
  let name := strTrim ((obj.displayName).getD "")
  let pick :=
    if prefer_name then (if name = "" then content else name)
    else (if content = "" then name else content)
  if pick = "" then none else some pick

/-- Mastodon text budget (mastodon.py line 54). -/
def TRUNCATE_TEXT_LENGTH : Nat := 500

/-- Reserved budget for an auto-shortened link (mastodon.py line 55). -/
def TRUNCATE_URL_LENGTH : Nat := 23

/-- Greedily take whole words within a character budget. -/
def takeWords (budget : Nat) : List String → List String
  | [] => []
  | w :: ws =>
    if Nat.ble w.length budget then
      w :: takeWords (budget - w.length - 1) ws
    else []

/-- Modelled from the spec: truncation (spec 4.3).  Content within the
budget is unchanged; over budget it is cut at a word boundary and an
ellipsis appended; when a link is to be included its shortened length is
pre-subtracted from the budget and the link appended. -/
def truncateText (budget : Nat) (content : String) (link : Option String) : String :=
  match link with
  | none =>
    if Nat.ble content.length budget then content
    else joinSep " " (takeWords (budget - 1)
      ((splitChar ' ' content.data).map String.mk)) ++ "…"
  | some l =>
    let budget2 := budget - (TRUNCATE_URL_LENGTH + 1)
    if Nat.ble content.length budget2 then content ++ " " ++ l
    else joinSep " " (takeWords (budget2 - 1)
      ((splitChar ' ' content.data).map String.mk)) ++ "… " ++ l

/-- Modelled from the spec: linkify for previews (util.linkify): wrap
bare http or https tokens in anchors. -/
def linkifyTok (w : String) : String :=
  if strStartsWith w "http://" || strStartsWith w "https://" then
    "<a href=\"" ++ w ++ "\">" ++ w ++ "</a>"
  else w

/-- Linkify a whole text, token by token. -/
def linkify (s : String) : String :=
  joinSep " " (((splitChar ' ' s.data).map String.mk).map linkifyTok)

/-- A platform JSON response restricted to the string-valued keys the
adapter touches (type and url); a value of none models a null. -/
abbrev RespDict := List (String × Option String)

/-- Whether a response dict has a key. -/
def dictHas (d : RespDict) (k : String) : Bool := d.any (fun p => p.1 == k)

/-- Set a key in a response dict: replace in place when present (keys in a
decoded JSON object are unique), else append. -/
def dictSet : RespDict → String → Option String → RespDict
  | [], k, v => [(k, v)]
  | (k1, v1) :: d, k, v =>
    if k1 == k then (k1, v) :: d else (k1, v1) :: dictSet d k v

/-- Look up a key in a response dict. -/
def dictGet (d : RespDict) (k : String) : Option (Option String) :=
  (d.find? (fun p => p.1 == k)).map (fun p => p.2)

/-- The result of create or preview_create (source.creation_result).
Preview results carry a string snippet, create results the platform
response dict. -/
structure CreationResult where
  content : Option (String ⊕ RespDict)
  description : Option String
  abort : Bool
  error_plain : Option String
  error_html : Option String
deriving DecidableEq

/-- An error creation result. -/
def creation_error (abort : Bool) (plain html : String) : CreationResult :=
  { content := none, description := none, abort := abort,
    error_plain := some plain, error_html := some html }

/-- A create result carrying the platform response. -/
def creation_content (d : RespDict) : CreationResult :=
  { content := some (.inr d), description := none, abort := false,
    error_plain := none, error_html := none }

/-- A preview result. -/
def creation_preview (c : Option String) (d : String) : CreationResult :=
  { content := c.map .inl, description := some d, abort := false,
    error_plain := none, error_html := none }

/-- Favourite endpoint path (API_FAVORITE, mastodon.py line 22). -/
def API_FAVORITE (id : String) : String := "/api/v1/statuses/" ++ id ++ "/favourite"

/-- Reblog endpoint path (API_REBLOG, mastodon.py line 24). -/
def API_REBLOG (id : String) : String := "/api/v1/statuses/" ++ id ++ "/reblog"

/-- Statuses endpoint path (API_STATUSES, mastodon.py line 25). -/
def API_STATUSES : String := "/api/v1/statuses"

/-- Create or preview a toot, reply, boost or favorite (mastodon.py
_create, lines 331 to 474).  The network is the post oracle mapping an
endpoint path to the decoded JSON response; media upload only affects
the posted payload, which the oracle abstracts over. -/
def mastodon_create (instanceUrl domain : String) (post : String → RespDict)
    (obj : PubObject) (preview : Bool) (include_link : Bool) :
    Except PyErr CreationResult := do
  let type0 := obj.objectType
  let verb := obj.verb
  let base := base_object domain obj
  let base_id := base.id
  let base_url := base.url
  let is_reply := type0 == some "comment" || !obj.inReplyTo.isEmpty
  let is_rsvp := verbIsRsvp verb
  let images := obj.image
  let videos := obj.stream
  let has_media := (!images.isEmpty || !videos.isEmpty)
    && (type0 == some "note" || type0 == some "article" || is_reply)
  let prefer_content := type0 == some "note" || (base_url.isSome && is_reply)
  let contentOpt : Option (Option String) :=
    match content_for_create obj (!prefer_content) with
    | some c => some (some c)
    | none =>
      if type0 == some "activity" && !is_rsvp then some verb
      else if has_media then some (some "")
      else none
  match contentOpt with
  | none =>
    return creation_error false "No content text found." "No content text found."
  | some contentRaw =>
    if is_reply && base_url.isNone then
      return creation_error true
        ("Could not find a toot on " ++ domain ++ " to reply to.")
        ("Could not find a toot on <a href=\"" ++ instanceUrl ++ "\">" ++ domain
          ++ "</a> to reply to. Check that your post has the right in-reply-to link.")
    let contentStr ←
      match contentRaw with
      | none => Except.error PyErr.typeError
      | some c =>
        Except.ok (truncateText TRUNCATE_TEXT_LENGTH c
          (if include_link then obj.url else none))
    let preview_content := linkify contentStr
    let step : CreationResult ⊕ RespDict :=
      if type0 == some "activity" && verb == some "like" then
        match base_url with
        | none => .inl (creation_error true
            ("Could not find a toot on " ++ domain ++ " to favorite.")
            ("Could not find a toot on <a href=\"" ++ instanceUrl ++ "\">" ++ domain
              ++ "</a> to favorite. Check that your post has the right u-like-of link."))
        | some bu =>
          if preview then
            .inl (creation_preview none
              ("<span class=\"verb\">favorite</span> <a href=\"" ++ bu
                ++ "\">this toot</a>."))
          else
            .inr (dictSet (post (API_FAVORITE (pyStr base_id))) "type" (some "like"))
      else if type0 == some "activity" && verb == some "share" then
        match base_url with
        | none => .inl (creation_error true
            "Could not find a toot to boost."
            ("Could not find a toot on <a href=\"" ++ instanceUrl ++ "\">" ++ domain
              ++ "</a> to boost. Check that your post has the right repost-of link."))
        | some bu =>
          if preview then
            .inl (creation_preview none
              ("<span class=\"verb\">boost</span> <a href=\"" ++ bu
                ++ "\">this toot</a>."))
          else
            .inr (dictSet (post (API_REBLOG (pyStr base_id))) "type" (some "repost"))
      else if type0 == some "note" || type0 == some "article" || is_reply || is_rsvp then
        if preview then
          let desc :=
            if is_reply then
              "<span class=\"verb\">reply</span> to <a href=\"" ++ pyStr base_url
                ++ "\">this toot</a>:"
            else "<span class=\"verb\">toot</span>:"
          let media_previews :=
            (videos.map (fun v =>
              "<video controls src=\"" ++ (v.url).getD "" ++ "\"><a href=\""
                ++ (v.url).getD "" ++ "\">this video</a></video>"))
            ++ (images.map (fun im =>
              "<img src=\"" ++ (im.url).getD "" ++ "\" alt=\""
                ++ (im.displayName).getD "" ++ "\" />"))
          let pc :=
            if media_previews.isEmpty then preview_content
            else preview_content ++ "<br /><br />" ++ joinSep " &nbsp; " media_previews
          .inl (creation_preview (some pc) desc)
        else
          .inr (post API_STATUSES)
      else
        .inl (creation_error false
          ("Cannot publish type=" ++ pyStr type0 ++ ", verb=" ++ pyStr verb
            ++ " to Mastodon")
          ("Cannot publish type=" ++ pyStr type0 ++ ", verb=" ++ pyStr verb
            ++ " to Mastodon"))
    match step with
    | .inl r => return r
    | .inr resp =>
      let resp2 := if dictHas resp "url" then resp else dictSet resp "url" base_url
      return creation_content resp2

/-! ## Concrete fixtures from the repository test suites -/

/-- The empty Mastodon account (the empty dict). -/
def emptyAccount : MAccount :=
  { id := none, username := none, url := none, display_name := none,
    avatar := none, created_at := none, note := none, fields := [] }

/-- The empty status (the empty dict). -/
def emptyStatus : MStatus :=
  .mk none none none none none none none none [] [] [] none

/-- A status carrying only an id: the account access then raises. -/
def statusNoAccount : MStatus :=
  .mk (some "1") none none none none none none none [] [] [] none

/-- The ACCOUNT fixture of test_mastodon.py. -/
def ACCOUNT_fix : MAccount :=
  { id := some "23507"
    username := some "snarfed"
    url := some "http://foo.com/@snarfed"
    display_name := some "Ryan Barrett"
    avatar := some "http://foo.com/snarfed.png"
    created_at := some "2017-04-19T20:38:19.704Z"
    note := some "my note"
    fields := [{
      name := some "Web site",
      value := some "<a href=\"https://snarfed.org\" rel=\"me nofollow noopener\" target=\"_blank\"><span class=\"invisible\">https://</span><span class=\"\">snarfed.org</span><span class=\"invisible\"></span></a>" }] }

/-- The STATUS fixture of test_mastodon.py (the fields this embedding
models). -/
def STATUS_fix : MStatus :=
  .mk (some "123") (some "http://foo.com/@snarfed/123")
    (some "2019-07-29T18:35:53.446Z")
    (some "<p>foo bar @alice #IndieWeb</p>")
    none (some "public")
    (some ACCOUNT_fix) none []
    [{ id := some "11018", url := some "https://other/@alice", username := some "alice" }]
    [{ url := some "http://foo.com/tags/indieweb", name := some "indieweb" }]
    (some { name := some "my app", url := some "http://app" })

/-- The LIKE fixture of test_mastodon.py. -/
def LIKE_fix : PubObject :=
  { objectType := some "activity", verb := some "like", content := none,
    displayName := none, url := none, inReplyTo := [],
    object := [{ id := none, url := some "http://foo.com/@snarfed/123",
                 displayName := none }],
    image := [], stream := [] }

/-- The SHARE fixture of test_mastodon.py. -/
def SHARE_fix : PubObject :=
  { LIKE_fix with verb := some "share" }

/-- Whether an object matches none of the publish handlers of the
Mastodon create dispatch (mastodon.py lines 408 to 469): not a like or
share activity, not a note or article, not a reply, not an RSVP. -/
def matchesNoHandler (obj : PubObject) : Bool :=
  !(obj.objectType == some "activity"
      && (obj.verb == some "like" || obj.verb == some "share"))
  && !(obj.objectType == some "note")
  && !(obj.objectType == some "article")
  && !(obj.objectType == some "comment")
  && obj.inReplyTo.isEmpty
  && !verbIsRsvp obj.verb

/-- Modelled from the spec words (section 4.2): merge urls into one
ordered list, appending each url only if it has not appeared before, so
that duplicates collapse to the first occurrence.  Used as the
specification-side reference for object_urls. -/
def firstOccurrenceMerge (l : List String) : List String :=
  l.foldl (fun acc x => if listHas x acc then acc else acc ++ [x]) []

/-- The response oracle of the fallback-chain scenario of spec section 8:
the suffix endpoint 404s, the verbatim id 500s, the owner-hint endpoint
succeeds. -/
def respFix : String → Nat :=
  fun s => if s = "56_34" then 200 else if s = "12_34" then 500 else 404

/-- A response oracle on which every lookup fails with 404. -/
def respAll404 : String → Nat := fun _ => 404

/-- The like-of tree of test_post_type_discovery. -/
def TREE_LIKEOF_fix : MF2 :=
  { type := ["h-entry"], props := [("like-of", [.s "http://foo/bar"])] }

/-- The contradictory tree of test_combined_reply_and_tag_of_error. -/
def TREE_CONFLICT_fix : MF2 :=
  { type := ["h-entry"],
    props := [("tag-of", [.s "https://a/post"]),
              ("in-reply-to", [.s "https://another/post"])] }

/-- An object no publish handler matches (test_create_unsupported_type
analogue for Mastodon). -/
def UNSUPPORTED_fix : PubObject :=
  { objectType := some "person", verb := none, content := some "foo",
    displayName := none, url := none, inReplyTo := [], object := [],
    image := [], stream := [] }

/-- A platform response oracle whose responses carry an id but no url
key (test_create_favorite: the result url is then the base toot url). -/
def POSTNOURL_fix : String → RespDict := fun _ => [("id", some "9")]

/-- A platform response oracle with empty responses. -/
def POSTEMPTY_fix : String → RespDict := fun _ => []

/-- The tag list of test_render_content_omits_tags_without_urls: a tag
with a name and no url, a tag with both, a tag with a url and no name. -/
def TAGS_fix : List CTag :=
  [{ objectType := none, url := none, displayName := some "bar",
     startIndex := none, spanLen := none },
   { objectType := none, url := some "http://baz", displayName := some "baz",
     startIndex := none, spanLen := none },
   { objectType := none, url := some "http://baj", displayName := none,
     startIndex := none, spanLen := none }]

/-! # Theorems -/

/-- C2: resolving the composite id 12_34 with alternate owner hint 56,
when the suffix endpoint returns 404, the verbatim endpoint 500 and the
owner-hint endpoint success, makes exactly the three attempts 34, 12_34,
56_34 in that order, each only after the previous one failed, returns
the id of the third attempt, and makes no fourth attempt. -/
theorem C2_fallback_chain (resp : String → Nat)
    (h34 : resp "34" = 404) (h12 : resp "12_34" = 500) (h56 : resp "56_34" = 200) :
    fb_resolve "12_34" (some "56") resp = (["34", "12_34", "56_34"], some "56_34") := by
  have hc : fb_candidate_ids "12_34" (some "56") = ["34", "12_34", "56_34"] := by decide
  rw [fb_resolve, hc]
  simp +decide [fb_attempt, h34, h12, h56, is2xx]

theorem C2_fallback_chain_witness :
    fb_resolve "12_34" (some "56") respFix = (["34", "12_34", "56_34"], some "56_34") :=
  C2_fallback_chain respFix (by decide) (by decide) (by decide)

/-- C3 counterexample: for the composite id 12_34 with every endpoint
failing, the attempt trace is 34 then 12_34 — the first attempt is the
suffix, not the id verbatim as the claim states. -/
theorem C3_counterexample :
    (fb_resolve "12_34" none respAll404).1 = ["34", "12_34"]
    ∧ (fb_resolve "12_34" none respAll404).1 ≠ ["12_34", "34"] := by
  refine ⟨by decide, by decide⟩

/-- C3 amended: when the id contains a compound separator, the first
lookup attempt uses the suffix after the first separator; the id verbatim
is attempted second, and only after the first attempt failed; a
successful first attempt ends the chain. -/
theorem C3_amended_suffix_first (aid pre suf : String) (uid : Option String)
    (resp : String → Nat) (hsplit : splitFirstSep '_' aid = some (pre, suf)) :
    (fb_resolve aid uid resp).1.head? = some suf
    ∧ (is2xx (resp suf) = true → (fb_resolve aid uid resp).1 = [suf])
    ∧ (is2xx (resp suf) = false → (fb_resolve aid uid resp).1.take 2 = [suf, aid]) := by
  rw [fb_resolve, fb_candidate_ids, hsplit]
  refine ⟨?_, ?_, ?_⟩
  · cases h : is2xx (resp suf) <;> simp [fb_attempt, h]
  · intro h; simp [fb_attempt, h]
  · intro h
    simp only [List.cons_append, List.nil_append]
    cases h2 : is2xx (resp aid) <;> simp [fb_attempt, h, h2]

theorem C3_amended_suffix_first_witness :
    (fb_resolve "12_34" none respAll404).1.take 2 = ["34", "12_34"] :=
  (C3_amended_suffix_first "12_34" "12" "34" none respAll404 (by decide)).2.2 (by decide)

/-- C4 counterexample: converting a status that has an id but no account
raises (the account accessor is applied to a missing value), so
status_to_object is not total on dicts missing optional fields. -/
theorem C4_counterexample :
    status_to_object "http://foo.com" "foo.com" statusNoAccount
      = .error .attributeError := rfl

/-- C6: a tree carrying both a tag-of and an in-reply-to relation fails
with the ambiguous-relation error: no canonical object is produced and
neither relation is picked. -/
theorem C6_ambiguous_relation (t : MF2) (h1 : t.hasProp "tag-of" = true)
    (h2 : t.hasProp "in-reply-to" = true) :
    json_to_object t = .error .ambiguousRelation := by
  simp [json_to_object, h1, h2]

theorem C6_ambiguous_relation_witness :
    json_to_object TREE_CONFLICT_fix = .error .ambiguousRelation :=
  C6_ambiguous_relation TREE_CONFLICT_fix (by decide) (by decide)

/-- C5: objectType and verb are derived from the relation properties of
the tree: like-of yields an activity with verb like; repost-of yields
verb share; with neither present the conversion defaults to a note with
no verb, so a bare like or repost property yields no verb. -/
theorem C5_derived_object_type (t : MF2)
    (hconf : ¬(t.hasProp "tag-of" = true ∧ t.hasProp "in-reply-to" = true)) :
    ∃ o, json_to_object t = .ok o
      ∧ (t.hasProp "like-of" = true → o.objectType = "activity" ∧ o.verb = some "like")
      ∧ (t.hasProp "like-of" = false → t.hasProp "repost-of" = true →
          o.objectType = "activity" ∧ o.verb = some "share")
      ∧ (t.hasProp "like-of" = false → t.hasProp "repost-of" = false →
          o.objectType = "note" ∧ o.verb = none) := by
  have hc : (t.hasProp "tag-of" && t.hasProp "in-reply-to") = false := by
    cases ha : t.hasProp "tag-of" <;> cases hb : t.hasProp "in-reply-to" <;> simp_all
  cases hl : t.hasProp "like-of" <;> cases hr : t.hasProp "repost-of"
  · exact ⟨⟨"note", none, contentOf (t.firstVal "content")⟩,
      by simp [json_to_object, hc, hl, hr], by simp, by simp, by simp⟩
  · exact ⟨⟨"activity", some "share", contentOf (t.firstVal "content")⟩,
      by simp [json_to_object, hc, hl, hr], by simp, by simp, by simp⟩
  · exact ⟨⟨"activity", some "like", contentOf (t.firstVal "content")⟩,
      by simp [json_to_object, hc, hl, hr], by simp, by simp, by simp⟩
  · exact ⟨⟨"activity", some "like", contentOf (t.firstVal "content")⟩,
      by simp [json_to_object, hc, hl, hr], by simp, by simp, by simp⟩

theorem C5_derived_object_type_witness :
    ∃ o, json_to_object TREE_LIKEOF_fix = .ok o
      ∧ o.objectType = "activity" ∧ o.verb = some "like" := by
  obtain ⟨o, ho, h1, _, _⟩ := C5_derived_object_type TREE_LIKEOF_fix (by decide)
  obtain ⟨ha, hb⟩ := h1 (by decide)
  exact ⟨o, ho, ha, hb⟩

/-- Membership through an append. -/
theorem listHas_append [BEq α] (x : α) (a b : List α) :
    listHas x (a ++ b) = (listHas x a || listHas x b) := by
  induction a with
  | nil => simp [listHas]
  | cons y ys ih => simp [listHas, ih, Bool.or_assoc]

/-- dedupSeen depends on the seen accumulator only through membership. -/
theorem dedupSeen_congr [BEq α] (l : List α) :
    ∀ (s1 s2 : List α), (∀ y, listHas y s1 = listHas y s2) →
      dedupSeen s1 l = dedupSeen s2 l := by
  induction l with
  | nil => intro s1 s2 _; rfl
  | cons x xs ih =>
    intro s1 s2 h
    simp only [dedupSeen, h x]
    split
    · exact ih s1 s2 h
    · exact congrArg (x :: ·)
        (ih (x :: s1) (x :: s2) (fun y => by simp [listHas, h y]))

/-- The first-occurrence fold equals dedupSeen relative to any already
seen prefix. -/
theorem foldl_firstOcc [BEq α] (l : List α) :
    ∀ acc : List α,
      l.foldl (fun a x => if listHas x a then a else a ++ [x]) acc
        = acc ++ dedupSeen acc l := by
  induction l with
  | nil => intro acc; simp [dedupSeen]
  | cons x xs ih =>
    intro acc
    simp only [List.foldl_cons, dedupSeen]
    split
    · exact ih acc
    · rw [ih (acc ++ [x]), List.append_assoc]
      exact congrArg (acc ++ ·) (congrArg (x :: ·)
        (dedupSeen_congr xs (acc ++ [x]) (x :: acc)
          (fun y => by simp [listHas_append, listHas, Bool.or_comm])))

/-- C8: merging the singular url with the urls list keeps the url first,
preserves the input order of the rest, and collapses duplicates to the
first occurrence by exact string equality, exactly as the
specification-side first-occurrence merge prescribes; on the concrete
actor input of the claim the result is b, c, a. -/
theorem C8_url_merge_order :
    object_urls (some "http://b") ["http://b", "http://c", "http://a"]
      = ["http://b", "http://c", "http://a"]
    ∧ (∀ (u : Option String) (us : List String),
        object_urls u us = firstOccurrenceMerge (u.toList ++ us))
    ∧ (∀ (u : String) (us : List String), (object_urls (some u) us).head? = some u) := by
  refine ⟨by decide, fun u us => ?_, fun u us => ?_⟩
  · rw [object_urls, dedupFirst, firstOccurrenceMerge, foldl_firstOcc]
    simp
  · simp [object_urls, dedupFirst, dedupSeen, listHas]

/-- The clamped span start never exceeds the clamped span end. -/
theorem effStart_le_effEnd (t : InlineTag) (n : Nat) : effStart n t ≤ effEnd n t := by
  simp only [effStart, effEnd]
  omega

/-- A boundary away from both ends of a single tag emits no markers. -/
theorem single_markers_none (t : InlineTag) (n p : Nat)
    (h1 : effStart n t ≠ p) (h2 : effEnd n t ≠ p) :
    boundaryMarkers [t] n p = "" := by
  simp [boundaryMarkers, closeMarkers, openMarkers, h1, h2]

/-- The start boundary of a single nonempty tag emits its opening
anchor. -/
theorem single_markers_open (t : InlineTag) (n p : Nat)
    (hs : effStart n t = p) (he : effEnd n t ≠ p) :
    boundaryMarkers [t] n p = anchorOpen t := by
  simp [boundaryMarkers, closeMarkers, openMarkers, hs, he, String.append_empty]

/-- The end boundary of a single nonempty tag emits its closing marker. -/
theorem single_markers_close (t : InlineTag) (n p : Nat)
    (hs : effStart n t ≠ p) (he : effEnd n t = p) :
    boundaryMarkers [t] n p = "</a>" := by
  simp [boundaryMarkers, closeMarkers, openMarkers, hs, he, String.append_empty]

/-- Walking past the end of a single tag just escapes the text. -/
theorem spliceWalk_after (t : InlineTag) (n : Nat) :
    ∀ (cs : List Char) (p : Nat), effEnd n t < p →
      spliceWalk [t] n p cs = escapeRun cs := by
  intro cs
  induction cs with
  | nil =>
    intro p h
    have hse := effStart_le_effEnd t n
    simp only [spliceWalk]
    rw [single_markers_none t n p (by omega) (by omega)]
    rfl
  | cons c rest ih =>
    intro p h
    have hse := effStart_le_effEnd t n
    simp only [spliceWalk]
    rw [single_markers_none t n p (by omega) (by omega), ih (p + 1) (by omega)]
    rfl

/-- Walking strictly inside a single tag escapes up to the end boundary,
closes the anchor there, and escapes the remainder. -/
theorem spliceWalk_mid (t : InlineTag) (n : Nat) :
    ∀ (cs : List Char) (p : Nat), effStart n t < p → p ≤ effEnd n t →
      effEnd n t ≤ p + cs.length →
      spliceWalk [t] n p cs
        = escapeRun (cs.take (effEnd n t - p)) ++ "</a>"
          ++ escapeRun (cs.drop (effEnd n t - p)) := by
  intro cs
  induction cs with
  | nil =>
    intro p h1 h2 h3
    simp only [List.length_nil, Nat.add_zero] at h3
    have hp : effEnd n t = p := by omega
    simp only [spliceWalk]
    rw [single_markers_close t n p (by omega) hp]
    simp [escapeRun, String.append_empty, String.empty_append]
  | cons c rest ih =>
    intro p h1 h2 h3
    simp only [List.length_cons] at h3
    by_cases hp : effEnd n t = p
    · simp only [spliceWalk]
      rw [single_markers_close t n p (by omega) hp,
          spliceWalk_after t n rest (p + 1) (by omega)]
      have h0 : effEnd n t - p = 0 := by omega
      rw [h0]
      simp [escapeRun, String.append_assoc, String.empty_append]
    · simp only [spliceWalk]
      rw [single_markers_none t n p (by omega) hp,
          ih (p + 1) (by omega) (by omega) (by omega)]
      have he : effEnd n t - p = (effEnd n t - (p + 1)) + 1 := by omega
      rw [he]
      simp [List.take_succ_cons, List.drop_succ_cons, escapeRun,
        String.append_assoc, String.empty_append]

/-- Walking from before a single nonempty tag escapes the text up to the
span, wraps exactly the span in the anchor, and escapes the rest. -/
theorem spliceWalk_pre (t : InlineTag) (n : Nat) :
    ∀ (cs : List Char) (p : Nat), p ≤ effStart n t → effStart n t < effEnd n t →
      effEnd n t ≤ p + cs.length →
      spliceWalk [t] n p cs
        = escapeRun (cs.take (effStart n t - p)) ++ anchorOpen t
          ++ escapeRun ((cs.drop (effStart n t - p)).take (effEnd n t - effStart n t))
          ++ "</a>" ++ escapeRun (cs.drop (effEnd n t - p)) := by
  intro cs
  induction cs with
  | nil =>
    intro p h1 h2 h3
    simp only [List.length_nil, Nat.add_zero] at h3
    omega
  | cons c rest ih =>
    intro p h1 h2 h3
    simp only [List.length_cons] at h3
    by_cases hs : effStart n t = p
    · simp only [spliceWalk]
      rw [single_markers_open t n p hs (by omega),
          spliceWalk_mid t n rest (p + 1) (by omega) (by omega) (by omega)]
      have h0 : effStart n t - p = 0 := by omega
      have h4 : effEnd n t - effStart n t = (effEnd n t - (p + 1)) + 1 := by omega
      have h5 : effEnd n t - p = (effEnd n t - (p + 1)) + 1 := by omega
      rw [h0, h4, h5]
      simp [List.take_succ_cons, List.drop_succ_cons, escapeRun,
        String.append_assoc, String.empty_append]
    · simp only [spliceWalk]
      rw [single_markers_none t n p (by omega) (by omega),
          ih (p + 1) (by omega) h2 (by omega)]
      have h4 : effStart n t - p = (effStart n t - (p + 1)) + 1 := by omega
      have h5 : effEnd n t - p = (effEnd n t - (p + 1)) + 1 := by omega
      rw [h4, h5]
      simp [List.take_succ_cons, List.drop_succ_cons, escapeRun,
        String.append_assoc, String.empty_append]

/-- Splicing a single in-bounds tag wraps exactly its span. -/
theorem spliceTags_single (cs : List Char) (t : InlineTag)
    (hl : 0 < t.spanLen) (hb : t.startIndex + t.spanLen ≤ cs.length) :
    spliceTags cs [t]
      = escapeRun (cs.take t.startIndex) ++ anchorOpen t
        ++ escapeRun ((cs.drop t.startIndex).take t.spanLen) ++ "</a>"
        ++ escapeRun (cs.drop (t.startIndex + t.spanLen)) := by
  have hs : effStart cs.length t = t.startIndex := by
    simp only [effStart]; omega
  have he : effEnd cs.length t = t.startIndex + t.spanLen := by
    simp only [effEnd]; omega
  rw [spliceTags]
  have hsort : sortLe (fun a b => Nat.ble a.startIndex b.startIndex) [t] = [t] := rfl
  rw [hsort, spliceWalk_pre t cs.length cs 0 (by omega) (by omega) (by omega)]
  rw [hs, he]
  simp [Nat.sub_zero, Nat.add_sub_cancel_left]

/-- C1: inline tag offsets are Unicode code-point offsets.  For any
content and any tag whose code-point span lies inside it, rendering
wraps in the anchor exactly the spanLen code points starting at
code-point index startIndex: everything before the span, the span
itself and everything after it are the corresponding take and drop of
the code-point sequence of the content. -/
theorem C1_code_point_offsets (content u : String) (oT nm : Option String)
    (s l : Nat) (hl : 0 < l) (hbound : s + l ≤ content.data.length) :
    render_content (some content)
      [{ objectType := oT, url := some u, displayName := nm,
         startIndex := some s, spanLen := some l }]
      = escapeRun (content.data.take s)
        ++ anchorOpen { url := u, startIndex := s, spanLen := l }
        ++ escapeRun ((content.data.drop s).take l) ++ "</a>"
        ++ escapeRun (content.data.drop (s + l)) := by
  rw [render_content]
  simp only [CTag.isInline, CTag.toInline, Option.isSome_some, Bool.and_self,
    List.filter, Bool.not_true, Option.getD_some, List.map]
  rw [spliceTags_single content.data { url := u, startIndex := s, spanLen := l } hl hbound]
  simp [outlineGroup, dedupFirst, dedupSeen, sortLe, concatAll,
    String.append_empty, String.append_assoc]

theorem C1_code_point_offsets_witness :
    render_content (some "💯💯💯 (by @itsmaeril)")
      [{ objectType := some "person", url := some "https://twitter.com/itsmaeril",
         displayName := some "Maeril", startIndex := some 8, spanLen := some 10 }]
      = "💯💯💯 (by <a href=\"https://twitter.com/itsmaeril\">@itsmaeril</a>)" := by
  rw [C1_code_point_offsets "💯💯💯 (by @itsmaeril)" "https://twitter.com/itsmaeril"
    (some "person") (some "Maeril") 8 10 (by decide) (by decide)]
  rfl

/-- C7 counterexample: on the tag list of
test_render_content_omits_tags_without_urls, the tag with displayName
bar and no url is omitted entirely: the output carries exactly two
anchors, both for the tags that have urls, not the three the claim
predicts (which would include an empty anchor preserving the position of
the url-less tag). -/
theorem C7_counterexample :
    render_content (some "foo") TAGS_fix
      = "foo\n<a class=\"tag\" aria-hidden=\"true\" href=\"http://baj\"></a>\n<a class=\"tag\" href=\"http://baz\">baz</a>"
    ∧ countSub (render_content (some "foo") TAGS_fix) "<a " = 2 :=
  ⟨by decide, by decide⟩

/-- C7 amended: a tag with no url is dropped silently whether or not it
has a displayName, while a tag with a url but no displayName is the one
rendered as an aria-hidden empty anchor. -/
theorem C7_amended_url_rule (nm u : String) :
    render_content none
      [{ objectType := none, url := none, displayName := some nm,
         startIndex := none, spanLen := none }] = ""
    ∧ render_content none
      [{ objectType := none, url := some u, displayName := none,
         startIndex := none, spanLen := none }]
      = "\n<a class=\"tag\" aria-hidden=\"true\" href=\"" ++ u ++ "\"></a>" := by
  constructor
  · rfl
  · simp [render_content, spliceTags, spliceWalk, boundaryMarkers, closeMarkers,
      openMarkers, outlineGroup, dedupFirst, dedupSeen, listHas, sortLe, insertLe,
      outlineAnchor, concatAll, CTag.isInline, String.append_empty,
      String.empty_append, String.append_assoc]

/-- An Except value is ok exactly when it is an ok constructor. -/
theorem isOk_iff (e : Except PyErr α) : e.isOk = true ↔ ∃ a, e = .ok a := by
  cases e <;> simp [Except.isOk, Except.toBool, pure, Except.pure]

/-- Bind on a successful Except just applies the continuation. -/
theorem except_ok_bind (a : α) (f : α → Except PyErr β) :
    (Except.ok a >>= f : Except PyErr β) = f a := rfl

/-- Pure Except values are ok. -/
theorem except_pure_isOk (a : α) : (pure a : Except PyErr α).isOk = true := rfl

/-- Monadic map succeeds when every element does. -/
theorem mapMexcept_isOk (g : α → Except PyErr β) (l : List α)
    (h : ∀ x ∈ l, (g x).isOk = true) : (mapMexcept g l).isOk = true := by
  induction l with
  | nil => rfl
  | cons x xs ih =>
    obtain ⟨y, hy⟩ := (isOk_iff _).mp (h x (by simp))
    obtain ⟨ys, hys⟩ := (isOk_iff _).mp (ih (fun z hz => h z (by simp [hz])))
    simp [mapMexcept, hy, hys, except_ok_bind, except_pure_isOk, Except.isOk, Except.toBool, pure, Except.pure]

/-- account_to_actor succeeds on every well-formed account. -/
theorem account_to_actor_isOk (domain : String) (a : Option MAccount)
    (h : accountWF a = true) : (account_to_actor domain a).isOk = true := by
  match a with
  | none => simp [accountWF] at h
  | some acc =>
    simp only [account_to_actor]
    by_cases hu : (acc.username).getD "" = ""
    · simp [hu, except_pure_isOk]
    · have h2 : acc.fields.all (fun f =>
          !(f.name == some "Web site") || (firstAnchorHref f.value).isOk) = true := h
      have hfields : ∀ x ∈ acc.fields.filter (fun f => f.name == some "Web site"),
          (firstAnchorHref x.value).isOk = true := by
        intro x hx
        have hmem := List.mem_filter.mp hx
        have hp : (x.name == some "Web site") = true := hmem.2
        have hall := List.all_eq_true.mp h2 x hmem.1
        simpa [hp] using hall
      obtain ⟨ws, hws⟩ := (isOk_iff _).mp (mapMexcept_isOk _ _ hfields)
      simp [hu, hws, except_ok_bind, except_pure_isOk, Except.isOk, Except.toBool, pure, Except.pure]

/-- status_to_object succeeds on every well-formed status. -/
theorem status_to_object_total (instanceUrl domain : String) :
    ∀ s : MStatus, statusWF s = true →
      (status_to_object instanceUrl domain s).isOk = true := by
  intro s h
  simp only [statusWF] at h
  by_cases hid : pyFalsy s.id = true
  · simp [status_to_object, hid, Except.isOk, Except.toBool, pure, Except.pure]
  · have hid' : pyFalsy s.id = false := by
      revert hid; cases pyFalsy s.id <;> simp
    rw [hid', Bool.false_or, Bool.and_eq_true, Bool.and_eq_true] at h
    obtain ⟨⟨hacc, hmed⟩, hreb⟩ := h
    obtain ⟨actor, hact⟩ := (isOk_iff _).mp (account_to_actor_isOk domain s.account hacc)
    cases hm : s.media_attachments with
    | nil =>
      cases hr : s.reblog with
      | none =>
        simp [status_to_object, hid', hact, hm, hr, except_ok_bind,
          except_pure_isOk, Except.isOk, Except.toBool, pure, Except.pure]
      | some r =>
        simp only [hr] at hreb
        by_cases hrc : pyFalsy r.content = true
        · simp [status_to_object, hid', hact, hm, hr, hrc, except_ok_bind,
            except_pure_isOk, Except.isOk, Except.toBool, pure, Except.pure]
        · have hrc' : pyFalsy r.content = false := by
            revert hrc; cases pyFalsy r.content <;> simp
          have hsome : (r.account).isSome = true := by
            rw [hrc', Bool.false_or] at hreb; exact hreb
          obtain ⟨racc, hracc⟩ := Option.isSome_iff_exists.mp hsome
          simp [status_to_object, hid', hact, hm, hr, hrc', hracc, except_ok_bind,
            except_pure_isOk, Except.isOk, Except.toBool, pure, Except.pure]
    | cons m ms =>
      rw [hm] at hmed
      simp only [mediaWF, List.head?] at hmed
      have hmt : (m.type = some "image" ∨ m.type = some "video")
          ∨ m.type = some "gifv" := by
        simpa only [Bool.or_eq_true, beq_iff_eq] using hmed
      cases hr : s.reblog with
      | none =>
        rcases hmt with (ht | ht) | ht <;>
          simp [status_to_object, hid', hact, hm, hr, ht, media_to_attachment,
            mediaType, except_ok_bind, except_pure_isOk, Except.isOk, Except.toBool, pure, Except.pure]
      | some r =>
        simp only [hr] at hreb
        by_cases hrc : pyFalsy r.content = true
        · rcases hmt with (ht | ht) | ht <;>
            simp [status_to_object, hid', hact, hm, hr, hrc, ht, media_to_attachment,
              mediaType, except_ok_bind, except_pure_isOk, Except.isOk, Except.toBool, pure, Except.pure]
        · have hrc' : pyFalsy r.content = false := by
            revert hrc; cases pyFalsy r.content <;> simp
          have hsome : (r.account).isSome = true := by
            rw [hrc', Bool.false_or] at hreb; exact hreb
          obtain ⟨racc, hracc⟩ := Option.isSome_iff_exists.mp hsome
          rcases hmt with (ht | ht) | ht <;>
            simp [status_to_object, hid', hact, hm, hr, hrc', hracc, ht,
              media_to_attachment, mediaType, except_ok_bind, except_pure_isOk,
              Except.isOk, Except.toBool, pure, Except.pure]

/-- status_to_activity succeeds on every deeply well-formed status. -/
theorem status_to_activity_total (instanceUrl domain : String) :
    ∀ s : MStatus, statusWFdeep s = true →
      (status_to_activity instanceUrl domain s).isOk = true := by
  intro s h
  simp only [statusWFdeep, Bool.and_eq_true] at h
  obtain ⟨h1, h2⟩ := h
  obtain ⟨obj, hobj⟩ := (isOk_iff _).mp (status_to_object_total instanceUrl domain s h1)
  cases hrb : s.reblog with
  | none =>
    simp [status_to_activity, hobj, hrb, except_ok_bind, except_pure_isOk,
      Except.isOk, Except.toBool, pure, Except.pure]
  | some r =>
    rw [hrb] at h2
    obtain ⟨robj, hrobj⟩ := (isOk_iff _).mp (status_to_object_total instanceUrl domain r h2)
    simp [status_to_activity, hobj, hrb, hrobj, except_ok_bind, except_pure_isOk,
      Except.isOk, Except.toBool, pure, Except.pure]

/-- C4 amended: the conversions return the empty canonical shape on empty
input and cannot raise on any status satisfying the well-formedness
conditions (account present with anchor-bearing Web site fields, a
recognized first media type, a reblog account present when the reblog
has content); without those conditions totality fails, as the
counterexample shows. -/
theorem C4_amended_totality (instanceUrl domain : String) :
    status_to_object instanceUrl domain emptyStatus = .ok ASObject.empty
    ∧ account_to_actor domain (some emptyAccount) = .ok ASActor.empty
    ∧ (∀ s : MStatus, statusWF s = true →
        (status_to_object instanceUrl domain s).isOk = true)
    ∧ (∀ s : MStatus, statusWFdeep s = true →
        (status_to_activity instanceUrl domain s).isOk = true) :=
  ⟨rfl, rfl, status_to_object_total instanceUrl domain,
   status_to_activity_total instanceUrl domain⟩

theorem C4_amended_totality_witness :
    (status_to_object "http://foo.com" "foo.com" STATUS_fix).isOk = true
    ∧ (status_to_activity "http://foo.com" "foo.com" STATUS_fix).isOk = true :=
  ⟨(C4_amended_totality "http://foo.com" "foo.com").2.2.1 STATUS_fix (by decide),
   (C4_amended_totality "http://foo.com" "foo.com").2.2.2 STATUS_fix (by decide)⟩

/-- Setting a key then reading it back yields the new value. -/
theorem dictGet_set_self (d : RespDict) (k : String) (v : Option String) :
    dictGet (dictSet d k v) k = some v := by
  induction d with
  | nil => simp [dictSet, dictGet]
  | cons p d ih =>
    by_cases hk : p.1 == k
    · have : p.1 = k := by simpa using hk
      simp [dictSet, dictGet, hk, this]
    · simp only [dictSet]
      rw [if_neg (by simpa using hk)]
      simp only [dictGet, List.find?]
      rw [show (p.1 == k) = false from by simpa using hk]
      exact ih

/-- Setting a key leaves reads of a different key unchanged. -/
theorem dictGet_set_other (d : RespDict) (k k2 : String) (v : Option String)
    (h : k2 ≠ k) : dictGet (dictSet d k v) k2 = dictGet d k2 := by
  induction d with
  | nil => simp [dictSet, dictGet, show (k == k2) = false from by simpa using (Ne.symm h)]
  | cons p d ih =>
    by_cases hk : p.1 == k
    · have hpk : p.1 = k := by simpa using hk
      have hp2 : (p.1 == k2) = false := by simp [hpk, Ne.symm h]
      simp [dictSet, dictGet, hk, List.find?, hp2]
    · simp only [dictSet]
      rw [if_neg (by simpa using hk)]
      by_cases hp2 : p.1 == k2
      · simp [dictGet, List.find?, hp2]
      · simp only [dictGet, List.find?]
        rw [show (p.1 == k2) = false from by simpa using hp2]
        exact ih

/-- Setting a key leaves presence of a different key unchanged. -/
theorem dictHas_set_other (d : RespDict) (k k2 : String) (v : Option String)
    (h : k2 ≠ k) : dictHas (dictSet d k v) k2 = dictHas d k2 := by
  induction d with
  | nil => simp [dictSet, dictHas, show (k == k2) = false from by simpa using (Ne.symm h)]
  | cons p d ih =>
    by_cases hk : p.1 == k
    · have hpk : p.1 = k := by simpa using hk
      simp [dictSet, dictHas, hk, hpk, Ne.symm h]
    · simp only [dictSet]
      rw [if_neg (by simpa using hk)]
      simp only [dictHas] at ih
      simp [dictHas, ih]

/-- C9: an object whose objectType and verb match no publish handler
yields a non-aborting creation result whose descriptive error appears in
both the plain and the HTML field (the caller may try other adapters),
while a like or share whose target toot cannot be resolved aborts with
an error in both fields. -/
theorem C9_unmatched_vs_unresolvable :
    (∀ (instanceUrl domain : String) (post : String → RespDict) (obj : PubObject)
        (c : String) (preview include_link : Bool),
        matchesNoHandler obj = true →
        content_for_create obj true = some c →
        mastodon_create instanceUrl domain post obj preview include_link
          = .ok (creation_error false
              ("Cannot publish type=" ++ pyStr obj.objectType ++ ", verb="
                ++ pyStr obj.verb ++ " to Mastodon")
              ("Cannot publish type=" ++ pyStr obj.objectType ++ ", verb="
                ++ pyStr obj.verb ++ " to Mastodon")))
    ∧ (∀ (instanceUrl domain : String) (post : String → RespDict) (obj : PubObject)
        (preview include_link : Bool),
        obj.objectType = some "activity" → obj.verb = some "like" →
        obj.inReplyTo = [] → (base_object domain obj).url = none →
        mastodon_create instanceUrl domain post obj preview include_link
          = .ok (creation_error true
              ("Could not find a toot on " ++ domain ++ " to favorite.")
              ("Could not find a toot on <a href=\"" ++ instanceUrl ++ "\">" ++ domain
                ++ "</a> to favorite. Check that your post has the right u-like-of link.")))
    ∧ (∀ (instanceUrl domain : String) (post : String → RespDict) (obj : PubObject)
        (preview include_link : Bool),
        obj.objectType = some "activity" → obj.verb = some "share" →
        obj.inReplyTo = [] → (base_object domain obj).url = none →
        mastodon_create instanceUrl domain post obj preview include_link
          = .ok (creation_error true
              "Could not find a toot to boost."
              ("Could not find a toot on <a href=\"" ++ instanceUrl ++ "\">" ++ domain
                ++ "</a> to boost. Check that your post has the right repost-of link."))) := by
  refine ⟨?_, ?_, ?_⟩
  · intro instanceUrl domain post obj c preview include_link hm hc
    simp only [matchesNoHandler, Bool.and_eq_true] at hm
    obtain ⟨⟨⟨⟨⟨hns, hnote⟩, hart⟩, hcom⟩, hrep⟩, hrsvp⟩ := hm
    simp only [Bool.not_eq_true'] at hns hnote hart hcom hrsvp
    have hlike : (obj.objectType == some "activity" && obj.verb == some "like") = false := by
      cases hA : (obj.objectType == some "activity") with
      | false => simp [hA]
      | true =>
        rw [hA, Bool.true_and] at hns
        rcases Bool.or_eq_false_iff.mp hns with ⟨h1, _⟩
        simp [hA, h1]
    have hshare : (obj.objectType == some "activity" && obj.verb == some "share") = false := by
      cases hA : (obj.objectType == some "activity") with
      | false => simp [hA]
      | true =>
        rw [hA, Bool.true_and] at hns
        rcases Bool.or_eq_false_iff.mp hns with ⟨_, h2⟩
        simp [hA, h2]
    simp [mastodon_create, hnote, hart, hcom, hrep, hrsvp, hlike, hshare, hc,
      except_ok_bind]
  · intro instanceUrl domain post obj preview include_link hty hverb hrep hbase
    cases hcc : content_for_create obj true with
    | none =>
      simp +decide [mastodon_create, hty, hverb, hrep, hbase, hcc, verbIsRsvp,
        except_ok_bind]
    | some c =>
      simp +decide [mastodon_create, hty, hverb, hrep, hbase, hcc, verbIsRsvp,
        except_ok_bind]
  · intro instanceUrl domain post obj preview include_link hty hverb hrep hbase
    cases hcc : content_for_create obj true with
    | none =>
      simp +decide [mastodon_create, hty, hverb, hrep, hbase, hcc, verbIsRsvp,
        except_ok_bind]
    | some c =>
      simp +decide [mastodon_create, hty, hverb, hrep, hbase, hcc, verbIsRsvp,
        except_ok_bind]

theorem C9_unmatched_vs_unresolvable_witness :
    mastodon_create "http://foo.com" "foo.com" POSTEMPTY_fix UNSUPPORTED_fix false false
      = .ok (creation_error false
          "Cannot publish type=person, verb=None to Mastodon"
          "Cannot publish type=person, verb=None to Mastodon")
    ∧ mastodon_create "http://foo.com" "foo.com" POSTEMPTY_fix
        { LIKE_fix with object := [] } false false
      = .ok (creation_error true
          "Could not find a toot on foo.com to favorite."
          "Could not find a toot on <a href=\"http://foo.com\">foo.com</a> to favorite. Check that your post has the right u-like-of link.") := by
  constructor
  · exact C9_unmatched_vs_unresolvable.1 "http://foo.com" "foo.com" POSTEMPTY_fix
      UNSUPPORTED_fix "foo" false false (by decide) (by decide)
  · exact C9_unmatched_vs_unresolvable.2.1 "http://foo.com" "foo.com" POSTEMPTY_fix
      { LIKE_fix with object := [] } false false rfl rfl rfl (by decide)

/-- C10: creating a like with a resolvable base toot posts to the
favourite endpoint and the result content carries type like; creating a
share posts to the reblog endpoint and the content carries type repost;
in both cases, when the platform response has no url key the result url
is backfilled with the url of the base (liked or boosted) toot. -/
theorem C10_like_share_content :
    (∀ (instanceUrl domain : String) (post : String → RespDict) (obj : PubObject)
        (bid bu : String) (include_link : Bool),
        obj.objectType = some "activity" → obj.verb = some "like" →
        obj.inReplyTo = [] →
        (base_object domain obj).id = some bid →
        (base_object domain obj).url = some bu →
        ∃ d, mastodon_create instanceUrl domain post obj false include_link
            = .ok (creation_content d)
          ∧ dictGet d "type" = some (some "like")
          ∧ (dictHas (post (API_FAVORITE bid)) "url" = false →
              dictGet d "url" = some (some bu)))
    ∧ (∀ (instanceUrl domain : String) (post : String → RespDict) (obj : PubObject)
        (bid bu : String) (include_link : Bool),
        obj.objectType = some "activity" → obj.verb = some "share" →
        obj.inReplyTo = [] →
        (base_object domain obj).id = some bid →
        (base_object domain obj).url = some bu →
        ∃ d, mastodon_create instanceUrl domain post obj false include_link
            = .ok (creation_content d)
          ∧ dictGet d "type" = some (some "repost")
          ∧ (dictHas (post (API_REBLOG bid)) "url" = false →
              dictGet d "url" = some (some bu))) := by
  constructor
  · intro instanceUrl domain post obj bid bu include_link hty hverb hrep hbid hbu
    have hred : mastodon_create instanceUrl domain post obj false include_link
        = .ok (creation_content
            (if dictHas (dictSet (post (API_FAVORITE bid)) "type" (some "like")) "url"
             then dictSet (post (API_FAVORITE bid)) "type" (some "like")
             else dictSet (dictSet (post (API_FAVORITE bid)) "type" (some "like"))
               "url" (some bu))) := by
      cases hcc : content_for_create obj true with
      | none =>
        simp +decide [mastodon_create, hty, hverb, hrep, hbid, hbu, hcc,
          verbIsRsvp, pyStr, except_ok_bind]
      | some c =>
        simp +decide [mastodon_create, hty, hverb, hrep, hbid, hbu, hcc,
          verbIsRsvp, pyStr, except_ok_bind]
    refine ⟨_, hred, ?_, ?_⟩
    · by_cases hhas : dictHas (dictSet (post (API_FAVORITE bid)) "type" (some "like")) "url"
      · rw [if_pos hhas, dictGet_set_self]
      · rw [if_neg hhas,
          dictGet_set_other _ "url" "type" (some bu) (by decide),
          dictGet_set_self]
    · intro hno
      have hstill : dictHas (dictSet (post (API_FAVORITE bid)) "type" (some "like")) "url"
          = false := by
        rw [dictHas_set_other _ "type" "url" (some "like") (by decide)]
        exact hno
      rw [if_neg (by simp [hstill]), dictGet_set_self]
  · intro instanceUrl domain post obj bid bu include_link hty hverb hrep hbid hbu
    have hred : mastodon_create instanceUrl domain post obj false include_link
        = .ok (creation_content
            (if dictHas (dictSet (post (API_REBLOG bid)) "type" (some "repost")) "url"
             then dictSet (post (API_REBLOG bid)) "type" (some "repost")
             else dictSet (dictSet (post (API_REBLOG bid)) "type" (some "repost"))
               "url" (some bu))) := by
      cases hcc : content_for_create obj true with
      | none =>
        simp +decide [mastodon_create, hty, hverb, hrep, hbid, hbu, hcc,
          verbIsRsvp, pyStr, except_ok_bind]
      | some c =>
        simp +decide [mastodon_create, hty, hverb, hrep, hbid, hbu, hcc,
          verbIsRsvp, pyStr, except_ok_bind]
    refine ⟨_, hred, ?_, ?_⟩
    · by_cases hhas : dictHas (dictSet (post (API_REBLOG bid)) "type" (some "repost")) "url"
      · rw [if_pos hhas, dictGet_set_self]
      · rw [if_neg hhas,
          dictGet_set_other _ "url" "type" (some bu) (by decide),
          dictGet_set_self]
    · intro hno
      have hstill : dictHas (dictSet (post (API_REBLOG bid)) "type" (some "repost")) "url"
          = false := by
        rw [dictHas_set_other _ "type" "url" (some "repost") (by decide)]
        exact hno
      rw [if_neg (by simp [hstill]), dictGet_set_self]

theorem C10_like_share_content_witness :
    (∃ d, mastodon_create "http://foo.com" "foo.com" POSTNOURL_fix LIKE_fix false false
        = .ok (creation_content d)
      ∧ dictGet d "type" = some (some "like")
      ∧ dictGet d "url" = some (some "http://foo.com/@snarfed/123"))
    ∧ (∃ d, mastodon_create "http://foo.com" "foo.com" POSTNOURL_fix SHARE_fix false false
        = .ok (creation_content d)
      ∧ dictGet d "type" = some (some "repost")
      ∧ dictGet d "url" = some (some "http://foo.com/@snarfed/123")) := by
  constructor
  · obtain ⟨d, h1, h2, h3⟩ := C10_like_share_content.1 "http://foo.com" "foo.com"
      POSTNOURL_fix LIKE_fix "123" "http://foo.com/@snarfed/123" false
      rfl rfl rfl (by decide) (by decide)
    exact ⟨d, h1, h2, h3 (by decide)⟩
  · obtain ⟨d, h1, h2, h3⟩ := C10_like_share_content.2 "http://foo.com" "foo.com"
      POSTNOURL_fix SHARE_fix "123" "http://foo.com/@snarfed/123" false
      rfl rfl rfl (by decide) (by decide)
    exact ⟨d, h1, h2, h3 (by decide)⟩

end Granary
